import Mathlib

/-!
Verification of the rule-engine core of `covid_expert_ui.py`
(class `SimpleCovidExpert` and the parts of `CovidExpertUI` that
consume it: the advisory notice in `run_diagnosis` and the rule
listing in `show_rules`).

Facts (`FactSet`) are modelled as `Finset String`, mirroring the
Python `set` of symptom keys built in `run_diagnosis`.
-/

/-- A conclusion dictionary: `label`, `confidence`, `advice`
(`confidence` is one of the strings "High", "Medium", "Low" in the
fixed store). -/
structure Conclusion where
  label : String
  confidence : String
  advice : String
deriving DecidableEq, Repr

/-- A rule dictionary: `name`, `conditions`, `conclusion`. -/
structure Rule where
  name : String
  conditions : List String
  conclusion : Conclusion
deriving DecidableEq, Repr

/-- The fact set passed to `evaluate`: a set of symptom-key strings. -/
abbrev FactSet := Finset String

/-- The state of a `SimpleCovidExpert` instance: the ordered rule list
`self.rules` and the default conclusion `self.default`. -/
structure SimpleCovidExpert where
  rules : List Rule
  default : Conclusion
deriving DecidableEq, Repr

/-- First rule literal from `SimpleCovidExpert.__init__`. -/
def rule1 : Rule :=
  { name := "Rule 1: Fever + Loss of Taste/Smell"
    conditions := ["fever", "loss_taste_smell"]
    conclusion :=
      { label := "Likely COVID-19"
        confidence := "High"
        advice := "Seek medical advice and isolate. Consider getting a PCR test." } }

/-- Second rule literal from `SimpleCovidExpert.__init__`. -/
def rule2 : Rule :=
  { name := "Rule 2: Fever + Cough"
    conditions := ["fever", "cough"]
    conclusion :=
      { label := "Possible COVID-19"
        confidence := "Medium"
        advice := "Self-isolate, monitor symptoms and consider testing." } }

/-- Default conclusion literal from `SimpleCovidExpert.__init__`. -/
def defaultConclusion : Conclusion :=
  { label := "Low likelihood of COVID-19"
    confidence := "Low"
    advice := "Could be normal flu. Monitor your condition and seek help if symptoms worsen." }

/-- The store built by `SimpleCovidExpert.__init__` (the `self.engine`
instance created by the UI). -/
def engine : SimpleCovidExpert :=
  { rules := [rule1, rule2], default := defaultConclusion }

/-- `all(cond in facts for cond in rule["conditions"])`: the per-rule
match test of `SimpleCovidExpert.evaluate`. -/
def ruleMatches (r : Rule) (facts : FactSet) : Bool :=
  r.conditions.all (fun cond => decide (cond ∈ facts))

/-- The loop body of `SimpleCovidExpert.evaluate`: scan the rule list
in order, return the first rule whose conditions all hold, else the
default. -/
def evalRules : List Rule → FactSet → Conclusion → Option Rule × Conclusion
  | [], _, d => (none, d)
  | r :: rs, facts, d =>
      if ruleMatches r facts then (some r, r.conclusion) else evalRules rs facts d

/-- `SimpleCovidExpert.evaluate(self, facts)`. -/
def SimpleCovidExpert.evaluate (self : SimpleCovidExpert) (facts : FactSet) :
    Option Rule × Conclusion :=
  evalRules self.rules facts self.default

/-- The advisory test at the end of `CovidExpertUI.run_diagnosis`:
`"recent_exposure" in facts and conclusion["confidence"] in ("High", "Medium")`. -/
def advisoryTriggered (facts : FactSet) (conclusion : Conclusion) : Bool :=
  decide ("recent_exposure" ∈ facts) &&
    (conclusion.confidence == "High" || conclusion.confidence == "Medium")

/-- Whether `run_diagnosis` shows the exposure message box for a given
fact set: it evaluates the engine, then applies `advisoryTriggered` to
the returned conclusion. -/
def runDiagnosisAdvisory (self : SimpleCovidExpert) (facts : FactSet) : Bool :=
  advisoryTriggered facts (self.evaluate facts).2

/-- The text built by `CovidExpertUI.show_rules`: one block per rule in
store order (name, conditions joined by " AND ", conclusion label and
confidence), then the default line. -/
def showRulesText (self : SimpleCovidExpert) : String :=
  String.join (self.rules.map (fun r =>
    r.name ++ ":\n"
      ++ "  IF " ++ String.intercalate " AND " r.conditions ++ "\n"
      ++ "  THEN " ++ r.conclusion.label ++ " (" ++ r.conclusion.confidence ++ ")\n\n"))
    ++ "Default rule: " ++ self.default.label ++ " (" ++ self.default.confidence ++ ")"

/-- The structured content of the `show_rules` listing: for each rule in
store order, the fields the listing displays (name, condition set,
conclusion label, conclusion confidence). -/
def showRulesEntries (self : SimpleCovidExpert) : List (String × List String × String × String) :=
  self.rules.map (fun r => (r.name, r.conditions, r.conclusion.label, r.conclusion.confidence))

/-- Propositional form of the spec's match condition: every condition in
the rule's condition set is present in the facts. -/
def RuleMatchesP (r : Rule) (facts : FactSet) : Prop :=
  ∀ cond ∈ r.conditions, cond ∈ facts

instance (r : Rule) (facts : FactSet) : Decidable (RuleMatchesP r facts) := by
  unfold RuleMatchesP; infer_instance

/-- Index (in store order) of the first matching rule, if any. -/
def matchIndex : List Rule → FactSet → Option Nat
  | [], _ => none
  | r :: rs, facts =>
      if ruleMatches r facts then some 0 else (matchIndex rs facts).map (· + 1)

/- ### Helper lemmas about the evaluation loop -/

theorem ruleMatches_iff (r : Rule) (facts : FactSet) :
    ruleMatches r facts = true ↔ RuleMatchesP r facts := by
  simp [ruleMatches, RuleMatchesP, List.all_eq_true]

theorem ruleMatches_mono {r : Rule} {F G : FactSet} (hFG : F ⊆ G)
    (h : ruleMatches r F = true) : ruleMatches r G = true := by
  rw [ruleMatches_iff] at h ⊢
  exact fun cond hc => hFG (h cond hc)

/-- The loop is total: it returns either a matched rule's conclusion or
the default. -/
theorem evalRules_total (rs : List Rule) (facts : FactSet) (d : Conclusion) :
    evalRules rs facts d = (none, d) ∨
      ∃ r ∈ rs, evalRules rs facts d = (some r, r.conclusion) := by
  induction rs with
  | nil => left; rfl
  | cons r rs ih =>
      by_cases h : ruleMatches r facts = true
      · right; exact ⟨r, List.mem_cons_self r rs, by simp [evalRules, h]⟩
      · rcases ih with h' | ⟨r', hr', h'⟩
        · left; simpa [evalRules, h] using h'
        · right; exact ⟨r', List.mem_cons_of_mem r hr', by simpa [evalRules, h] using h'⟩

/-- If the loop returns a rule, that rule is the first match: it sits at
the first matching index, matches, and every earlier rule fails. -/
theorem evalRules_some (rs : List Rule) (facts : FactSet) (d : Conclusion)
    (r : Rule) (c : Conclusion) (h : evalRules rs facts d = (some r, c)) :
    c = r.conclusion ∧
      ∃ i, rs[i]? = some r ∧ matchIndex rs facts = some i ∧
        RuleMatchesP r facts ∧
        ∀ j < i, ∀ r', rs[j]? = some r' → ¬ RuleMatchesP r' facts := by
  induction rs with
  | nil => simp [evalRules] at h
  | cons a rs ih =>
      by_cases ha : ruleMatches a facts = true
      · rw [evalRules, if_pos ha] at h
        have h1 : a = r := by simpa using congrArg Prod.fst h
        have h2 : c = r.conclusion := by
          have := congrArg Prod.snd h
          simp only at this
          rw [← this, h1]
        subst h1
        refine ⟨h2, 0, by simp, by simp [matchIndex, ha],
          (ruleMatches_iff _ _).mp ha, ?_⟩
        intro j hj
        exact absurd hj (Nat.not_lt_zero j)
      · rw [evalRules, if_neg ha] at h
        obtain ⟨hc, i, hi, hmi, hm, hfirst⟩ := ih h
        refine ⟨hc, i + 1, by simpa using hi, by simp [matchIndex, ha, hmi], hm, ?_⟩
        intro j hj r' hr'
        cases j with
        | zero =>
            intro hP
            have har : a = r' := by simpa using hr'
            exact ha ((ruleMatches_iff _ _).mpr (har ▸ hP))
        | succ j' =>
            exact hfirst j' (by omega) r' (by simpa using hr')

/-- A match index points at a rule, and the loop returns that rule. -/
theorem evalRules_of_matchIndex (rs : List Rule) (facts : FactSet) (d : Conclusion)
    (j : Nat) (h : matchIndex rs facts = some j) :
    ∃ r, rs[j]? = some r ∧ evalRules rs facts d = (some r, r.conclusion) := by
  induction rs generalizing j with
  | nil => simp [matchIndex] at h
  | cons a rs ih =>
      by_cases ha : ruleMatches a facts = true
      · rw [matchIndex, if_pos ha] at h
        cases Option.some.inj h
        exact ⟨a, by simp, by rw [evalRules, if_pos ha]⟩
      · rw [matchIndex, if_neg ha] at h
        obtain ⟨j', hj', rfl⟩ := Option.map_eq_some'.mp h
        obtain ⟨r, hr, heval⟩ := ih j' hj'
        exact ⟨r, by simpa using hr, by rw [evalRules, if_neg ha]; exact heval⟩

/-- Growing the fact set can only move the first match earlier. -/
theorem matchIndex_mono (rs : List Rule) {F G : FactSet} (hFG : F ⊆ G)
    (i : Nat) (h : matchIndex rs F = some i) :
    ∃ j, matchIndex rs G = some j ∧ j ≤ i := by
  induction rs generalizing i with
  | nil => simp [matchIndex] at h
  | cons a rs ih =>
      by_cases haG : ruleMatches a G = true
      · exact ⟨0, by rw [matchIndex, if_pos haG], Nat.zero_le i⟩
      · have haF : ¬ ruleMatches a F = true := fun hm => haG (ruleMatches_mono hFG hm)
        rw [matchIndex, if_neg haF] at h
        obtain ⟨i', hi', rfl⟩ := Option.map_eq_some'.mp h
        obtain ⟨j', hj', hle⟩ := ih i' hi'
        exact ⟨j' + 1, by rw [matchIndex, if_neg haG, hj']; rfl, by omega⟩

/-- If the loop returns no rule, it returns the default and no rule in
the list matches. -/
theorem evalRules_none (rs : List Rule) (facts : FactSet) (d : Conclusion)
    (c : Conclusion) (h : evalRules rs facts d = (none, c)) :
    c = d ∧ ∀ r ∈ rs, ¬ RuleMatchesP r facts := by
  induction rs with
  | nil =>
      simp only [evalRules, Prod.mk.injEq] at h
      exact ⟨h.2.symm, by simp⟩
  | cons a rs ih =>
      by_cases ha : ruleMatches a facts = true
      · simp [evalRules, ha] at h
      · obtain ⟨hc, hall⟩ := ih (by simpa [evalRules, ha] using h)
        refine ⟨hc, ?_⟩
        intro r hr
        rcases List.mem_cons.mp hr with rfl | hr'
        · exact fun hP => ha ((ruleMatches_iff _ _).mpr hP)
        · exact hall r hr'

/- ### Claim theorems -/

/-- C1: for every FactSet and the fixed store, `evaluate` returns the
first rule in store order whose entire condition set is contained in
the facts, paired with that rule's conclusion; if no rule's condition
set is contained in the facts, it returns `(none, default)`. -/
theorem C1_evaluate_first_match (facts : FactSet) :
    (∀ r c, engine.evaluate facts = (some r, c) →
      c = r.conclusion ∧
        ∃ i : Nat, engine.rules[i]? = some r ∧ RuleMatchesP r facts ∧
          ∀ j < i, ∀ r', engine.rules[j]? = some r' → ¬ RuleMatchesP r' facts) ∧
    (∀ c, engine.evaluate facts = (none, c) →
      c = engine.default ∧ ∀ r ∈ engine.rules, ¬ RuleMatchesP r facts) := by
  constructor
  · intro r c h
    obtain ⟨hc, i, hi, _, hm, hfirst⟩ := evalRules_some _ _ _ _ _ h
    exact ⟨hc, i, hi, hm, hfirst⟩
  · intro c h
    exact evalRules_none _ _ _ _ h

/-- Witness for C1 at `facts = {fever, loss_taste_smell}`. -/
theorem C1_evaluate_first_match_witness :
    rule1.conclusion = rule1.conclusion ∧
      ∃ i : Nat, engine.rules[i]? = some rule1 ∧
        RuleMatchesP rule1 {"fever", "loss_taste_smell"} ∧
        ∀ j < i, ∀ r', engine.rules[j]? = some r' →
          ¬ RuleMatchesP r' ({"fever", "loss_taste_smell"} : FactSet) :=
  (C1_evaluate_first_match {"fever", "loss_taste_smell"}).1 rule1 rule1.conclusion
    (by decide)

/-- C2: for every FactSet containing fever, cough and loss_taste_smell
(so both rules match), `evaluate` returns Rule 1, not Rule 2:
first-match precedence by store order. -/
theorem C2_rule1_precedence (facts : FactSet)
    (hf : "fever" ∈ facts) (hc : "cough" ∈ facts)
    (hl : "loss_taste_smell" ∈ facts) :
    engine.evaluate facts = (some rule1, rule1.conclusion) ∧
      RuleMatchesP rule2 facts ∧
      rule1.name = "Rule 1: Fever + Loss of Taste/Smell" ∧ rule1 ≠ rule2 := by
  have h1 : ruleMatches rule1 facts = true := by
    simp [ruleMatches, rule1, hf, hl]
  refine ⟨?_, ?_, rfl, by decide⟩
  · simp [SimpleCovidExpert.evaluate, engine, evalRules, h1]
  · intro cond hcond
    simp only [rule2, List.mem_cons, List.not_mem_nil, or_false] at hcond
    rcases hcond with rfl | rfl
    · exact hf
    · exact hc

/-- Witness for C2 at `facts = {fever, cough, loss_taste_smell}`. -/
theorem C2_rule1_precedence_witness :
    engine.evaluate {"fever", "cough", "loss_taste_smell"} = (some rule1, rule1.conclusion) ∧
      RuleMatchesP rule2 {"fever", "cough", "loss_taste_smell"} ∧
      rule1.name = "Rule 1: Fever + Loss of Taste/Smell" ∧ rule1 ≠ rule2 :=
  C2_rule1_precedence {"fever", "cough", "loss_taste_smell"}
    (by decide) (by decide) (by decide)

/-- C3: for every FactSet containing fever and cough but not
loss_taste_smell, `evaluate` returns the rule named
"Rule 2: Fever + Cough" with a Medium-confidence conclusion. -/
theorem C3_rule2_fires (facts : FactSet)
    (hf : "fever" ∈ facts) (hc : "cough" ∈ facts)
    (hl : "loss_taste_smell" ∉ facts) :
    engine.evaluate facts = (some rule2, rule2.conclusion) ∧
      rule2.name = "Rule 2: Fever + Cough" ∧
      rule2.conclusion.confidence = "Medium" := by
  have h1 : ruleMatches rule1 facts = false := by
    simp [ruleMatches, rule1, hl]
  have h2 : ruleMatches rule2 facts = true := by
    simp [ruleMatches, rule2, hf, hc]
  exact ⟨by simp [SimpleCovidExpert.evaluate, engine, evalRules, h1, h2], rfl, rfl⟩

/-- Witness for C3 at `facts = {fever, cough}`. -/
theorem C3_rule2_fires_witness :
    engine.evaluate {"fever", "cough"} = (some rule2, rule2.conclusion) ∧
      rule2.name = "Rule 2: Fever + Cough" ∧
      rule2.conclusion.confidence = "Medium" :=
  C3_rule2_fires {"fever", "cough"} (by decide) (by decide) (by decide)

/-- C4: for every FactSet in which neither rule's full condition set is
contained, `evaluate` returns `none` for the matched rule together with
the default conclusion, whose confidence is Low. -/
theorem C4_default_applies (facts : FactSet)
    (h : ∀ r ∈ engine.rules, ¬ RuleMatchesP r facts) :
    engine.evaluate facts = (none, engine.default) ∧
      engine.default.confidence = "Low" := by
  have hb1 : ruleMatches rule1 facts = false := by
    rw [Bool.eq_false_iff]
    intro hm
    exact h rule1 (by simp [engine]) ((ruleMatches_iff _ _).mp hm)
  have hb2 : ruleMatches rule2 facts = false := by
    rw [Bool.eq_false_iff]
    intro hm
    exact h rule2 (by simp [engine]) ((ruleMatches_iff _ _).mp hm)
  exact ⟨by simp [SimpleCovidExpert.evaluate, engine, evalRules, hb1, hb2], rfl⟩

/-- Witness for C4 at `facts = ∅`. -/
theorem C4_default_applies_witness :
    engine.evaluate ∅ = (none, engine.default) ∧
      engine.default.confidence = "Low" :=
  C4_default_applies ∅ (by decide)

/-- C5: `evaluate` is total: for every FactSet (the empty set included)
it returns a conclusion, always one of the two normal outcomes — the
default, or a store rule's conclusion; no other branch exists. -/
theorem C5_evaluate_total (facts : FactSet) :
    engine.evaluate facts = (none, engine.default) ∨
      ∃ r ∈ engine.rules, engine.evaluate facts = (some r, r.conclusion) :=
  evalRules_total engine.rules facts engine.default

/-- C6: `evaluate` is deterministic: two evaluations with the same
FactSet (same membership) and the same store agree on label,
confidence, advice and matched-rule identity. -/
theorem C6_deterministic (f1 f2 : FactSet) (h : ∀ s, s ∈ f1 ↔ s ∈ f2) :
    (engine.evaluate f1).2.label = (engine.evaluate f2).2.label ∧
      (engine.evaluate f1).2.confidence = (engine.evaluate f2).2.confidence ∧
      (engine.evaluate f1).2.advice = (engine.evaluate f2).2.advice ∧
      (engine.evaluate f1).1 = (engine.evaluate f2).1 := by
  have heq : f1 = f2 := Finset.ext h
  subst heq
  exact ⟨rfl, rfl, rfl, rfl⟩

/-- Witness for C6 at `f1 = f2 = {fever}`. -/
theorem C6_deterministic_witness :
    (engine.evaluate {"fever"}).2.label = (engine.evaluate {"fever"}).2.label ∧
      (engine.evaluate {"fever"}).2.confidence = (engine.evaluate {"fever"}).2.confidence ∧
      (engine.evaluate {"fever"}).2.advice = (engine.evaluate {"fever"}).2.advice ∧
      (engine.evaluate {"fever"}).1 = (engine.evaluate {"fever"}).1 :=
  C6_deterministic {"fever"} {"fever"} (fun _ => Iff.rfl)

/-- C7: the advisory notice is surfaced iff `recent_exposure` is in the
facts and the conclusion returned by `evaluate` has confidence High or
Medium; `{fever, loss_taste_smell, recent_exposure}` triggers it and
`{recent_exposure}` alone does not. -/
theorem C7_advisory_iff :
    (∀ facts : FactSet, runDiagnosisAdvisory engine facts = true ↔
      ("recent_exposure" ∈ facts ∧
        ((engine.evaluate facts).2.confidence = "High" ∨
          (engine.evaluate facts).2.confidence = "Medium"))) ∧
    runDiagnosisAdvisory engine {"fever", "loss_taste_smell", "recent_exposure"} = true ∧
    runDiagnosisAdvisory engine {"recent_exposure"} = false := by
  refine ⟨?_, by decide, by decide⟩
  intro facts
  simp [runDiagnosisAdvisory, advisoryTriggered, Bool.and_eq_true,
    Bool.or_eq_true, beq_iff_eq, decide_eq_true_eq]

/-- C8: the rule listing reports exactly the store's 2 rules in declared
order followed by the default, with each entry's name, condition set,
conclusion label and confidence equal to the store's literal content. -/
theorem C8_rule_listing :
    showRulesEntries engine =
      [("Rule 1: Fever + Loss of Taste/Smell", ["fever", "loss_taste_smell"],
        "Likely COVID-19", "High"),
       ("Rule 2: Fever + Cough", ["fever", "cough"], "Possible COVID-19", "Medium")] ∧
    (showRulesEntries engine).length = 2 ∧
    engine.default.label = "Low likelihood of COVID-19" ∧
    engine.default.confidence = "Low" ∧
    showRulesText engine =
      "Rule 1: Fever + Loss of Taste/Smell:\n  IF fever AND loss_taste_smell\n  THEN Likely COVID-19 (High)\n\nRule 2: Fever + Cough:\n  IF fever AND cough\n  THEN Possible COVID-19 (Medium)\n\nDefault rule: Low likelihood of COVID-19 (Low)" := by
  refine ⟨rfl, rfl, rfl, rfl, rfl⟩

/-- C9: store invariant: every rule in the store has a non-empty
condition set and the default conclusion exists, so `evaluate` always
produces an answer (a rule's conclusion or the default); the store is a
constant, never mutated after construction. -/
theorem C9_store_invariant :
    (∀ r ∈ engine.rules, r.conditions ≠ []) ∧
    engine.default = defaultConclusion ∧
    (∀ facts : FactSet,
      engine.evaluate facts = (none, engine.default) ∨
        ∃ r ∈ engine.rules, engine.evaluate facts = (some r, r.conclusion)) := by
  refine ⟨by decide, rfl, ?_⟩
  intro facts
  exact evalRules_total engine.rules facts engine.default

/-- C10: matching is monotone in the fact set: if `F ⊆ G` and
`evaluate F` matches some rule, then `evaluate G` also matches some
rule, and that rule's position in store order is no later than the
position of the rule matched for `F`. -/
theorem C10_monotone (F G : FactSet) (hFG : F ⊆ G) (rF : Rule)
    (h : (engine.evaluate F).1 = some rF) :
    ∃ (rG : Rule) (iG iF : Nat),
      engine.evaluate G = (some rG, rG.conclusion) ∧
        matchIndex engine.rules F = some iF ∧
        matchIndex engine.rules G = some iG ∧
        engine.rules[iF]? = some rF ∧
        engine.rules[iG]? = some rG ∧
        iG ≤ iF := by
  have h' : evalRules engine.rules F engine.default = (some rF, (engine.evaluate F).2) := by
    rw [← h]
    exact Prod.mk.eta.symm
  obtain ⟨-, iF, hiF, hmiF, -, -⟩ := evalRules_some _ _ _ _ _ h'
  obtain ⟨iG, hmiG, hle⟩ := matchIndex_mono engine.rules hFG iF hmiF
  obtain ⟨rG, hiG, hevalG⟩ := evalRules_of_matchIndex engine.rules G engine.default iG hmiG
  exact ⟨rG, iG, iF, hevalG, hmiF, hmiG, hiF, hiG, hle⟩

/-- Witness for C10 at `F = {fever, cough}` and
`G = {fever, cough, loss_taste_smell}`: F matches Rule 2 (index 1), G
matches Rule 1 (index 0). -/
theorem C10_monotone_witness :
    ∃ (rG : Rule) (iG iF : Nat),
      engine.evaluate {"fever", "cough", "loss_taste_smell"} = (some rG, rG.conclusion) ∧
        matchIndex engine.rules {"fever", "cough"} = some iF ∧
        matchIndex engine.rules {"fever", "cough", "loss_taste_smell"} = some iG ∧
        engine.rules[iF]? = some rule2 ∧
        engine.rules[iG]? = some rG ∧
        iG ≤ iF :=
  C10_monotone {"fever", "cough"} {"fever", "cough", "loss_taste_smell"}
    (by decide) rule2 (by decide)
